import Mathlib

/-!
Shallow embedding of the two strategy classes of the repository
(src/long_strat.py and src/long_and_short_strat.py).

Conventions of the embedding:
* Python floats (cash, prices, predictions, P&L) are modelled as rationals.
* Python `int(x)` is truncation toward zero, modelled by `pyInt`.
* Python `f-string` two-decimal formatting `:.2f` is modelled by `fmt2`
  (round half to even at two decimals, then render).
* A method call sequence is modelled as an explicit function returning the
  list of order intents submitted to the broker and the list of log
  messages printed, both in call order.  The strategy state touched by the
  notification handlers (the pending-order handle, the recorded execution
  price and commission, the broker-owned position size) is passed
  explicitly as `StratState`.
* The date part of a log line is produced by the external data feed; `logLine`
  models the `log` method, which prepends the ISO date and a comma.
-/

namespace MLTrading

/-- Python `int(q)`: truncation of a rational toward zero. -/
def pyInt (q : ℚ) : ℤ := if 0 ≤ q then ⌊q⌋ else -⌊-q⌋

/-- Rounding of `q` to the nearest integer, ties to even, as done by the
Python `:.2f` float formatting (applied to `q * 100`). -/
def roundHalfEven (q : ℚ) : ℤ :=
  if q - ⌊q⌋ < 1/2 then ⌊q⌋
  else if 1/2 < q - ⌊q⌋ then ⌊q⌋ + 1
  else if ⌊q⌋ % 2 = 0 then ⌊q⌋ else ⌊q⌋ + 1

/-- Rendering of an integer number of hundredths as a decimal numeral with
exactly two digits after the point. -/
def renderCents (n : ℤ) : String :=
  (if n < 0 then "-" else "") ++ toString (n.natAbs / 100) ++ "." ++
    (if n.natAbs % 100 < 10 then "0" else "") ++ toString (n.natAbs % 100)

/-- Python `:.2f` formatting of a value modelled as a rational. -/
def fmt2 (q : ℚ) : String := renderCents (roundHalfEven (q * 100))

/-- Stand-in for the default Python string rendering of a float data field
(the `Open:` and `Close:` fields of the entry log lines are formatted with
plain interpolation, not `:.2f`).  The exact digits of this external
presentation detail are not inspected by any claim. -/
def fmtPy (q : ℚ) : String := if q.den = 1 then toString q.num ++ ".0" else fmt2 q

/-- All-in position sizing, the expression
`int(self.broker.getcash() / self.datas[0].open)` shared by both
strategies (src/long_strat.py line 105, src/long_and_short_strat.py
line 96). -/
def size (cash openPx : ℚ) : ℤ := pyInt (cash / openPx)

/-- Message of src/long_strat.py line 107 and src/long_and_short_strat.py
line 101. -/
def longCreatedMsg (n : ℤ) (cash openPx closePx : ℚ) : String :=
  "LONG CREATED --- Size: " ++ toString n ++ ", Cash: " ++ fmt2 cash ++
    ", Open: " ++ fmtPy openPx ++ ", Close: " ++ fmtPy closePx

/-- Message of src/long_and_short_strat.py line 105. -/
def shortCreatedMsg (n : ℤ) (cash openPx closePx : ℚ) : String :=
  "SHORT CREATED --- Size: " ++ toString n ++ ", Cash: " ++ fmt2 cash ++
    ", Open: " ++ fmtPy openPx ++ ", Close: " ++ fmtPy closePx

/-- Message of src/long_strat.py line 112. -/
def sellCreatedMsg (n : ℤ) : String := "SELL CREATED --- Size: " ++ toString n

/-- Message of src/long_and_short_strat.py line 111. -/
def closeLongMsg (n : ℤ) : String := "CLOSE LONG POSITION --- Size: " ++ toString n

/-- Message of src/long_and_short_strat.py line 118. -/
def closeShortMsg (n : ℤ) : String := "CLOSE SHORT POSITION --- Size: " ++ toString n

/-- Message of src/long_strat.py line 71. -/
def buyExecutedMsg (price value comm : ℚ) : String :=
  "BUY EXECUTED --- Price: " ++ fmt2 price ++ ", Cost: " ++ fmt2 value ++
    ", Commission: " ++ fmt2 comm

/-- Message of src/long_strat.py line 75. -/
def sellExecutedMsg (price value comm : ℚ) : String :=
  "SELL EXECUTED --- Price: " ++ fmt2 price ++ ", Cost: " ++ fmt2 value ++
    ", Commission: " ++ fmt2 comm

/-- Message of src/long_strat.py line 79 and src/long_and_short_strat.py
line 72. -/
def orderFailedMsg : String := "Order Failed"

/-- Message of src/long_strat.py line 93 and src/long_and_short_strat.py
line 86. -/
def operationResultMsg (pnl pnlcomm : ℚ) : String :=
  "OPERATION RESULT --- Gross: " ++ fmt2 pnl ++ ", Net: " ++ fmt2 pnlcomm

/-- The `log` method of both strategies: one printed line per call,
the ISO date of the current bar followed by a comma and the message. -/
def logLine (dt txt : String) : String := dt ++ ", " ++ txt

/-- An order intent submitted to the broker: `self.buy(size=n)`,
`self.sell(size=n)` or `self.close()`. -/
inductive Intent where
  | buy (n : ℤ)
  | sell (n : ℤ)
  | close
deriving DecidableEq

/-- The backtrader order status values that an order notification can
carry. -/
inductive OrderStatus where
  | Created
  | Submitted
  | Accepted
  | Partial
  | Completed
  | Canceled
  | Expired
  | Margin
  | Rejected
deriving DecidableEq

/-- The `order.executed` record of a notification: executed price,
notional value (cost) and commission. -/
structure Executed where
  price : ℚ
  value : ℚ
  comm : ℚ
deriving DecidableEq

/-- An order notification as seen by `notify_order`. -/
structure BtOrder where
  status : OrderStatus
  isbuy : Bool
  executed : Executed
deriving DecidableEq

/-- A trade notification as seen by `notify_trade`: whether the trade is
closed, the gross P&L `trade.pnl` and the net P&L `trade.pnlcomm`. -/
structure Trade where
  isclosed : Bool
  pnl : ℚ
  pnlcomm : ℚ
deriving DecidableEq

/-- The mutable strategy attributes touched by the notification handlers:
the pending-order handle `self.order` (opaque, so modelled as
`Option Unit`), the recorded last execution price `self.price` and
commission `self.comm`, and the broker-owned position size. -/
structure StratState where
  order : Option Unit
  price : Option ℚ
  comm : Option ℚ
  position : ℤ
deriving DecidableEq

namespace LongStrat

/-- The `next_open` method of src/long_strat.py (lines 95-113), as a
function of the cash read from the broker, the open and close prices and
prediction of the current bar, and the current position size.  It returns
the submitted intents and the printed log messages, in call order. -/
def next_open (cash openPx closePx pred : ℚ) (pos : ℤ) : List Intent × List String :=
  if pos = 0 then
    if 0 < pred then
      ([Intent.buy (size cash openPx)],
       [longCreatedMsg (size cash openPx) cash openPx closePx])
    else ([], [])
  else
    if pred < 0 then
      ([Intent.sell pos], [sellCreatedMsg pos])
    else ([], [])

/-- The `notify_order` method of src/long_strat.py (lines 57-82). -/
def notify_order (s : StratState) (o : BtOrder) : StratState × List String :=
  if o.status = .Submitted ∨ o.status = .Accepted then (s, [])
  else if o.status = .Completed then
    if o.isbuy then
      ({ s with order := none,
                price := some o.executed.price,
                comm := some o.executed.comm },
       [buyExecutedMsg o.executed.price o.executed.value o.executed.comm])
    else
      ({ s with order := none },
       [sellExecutedMsg o.executed.price o.executed.value o.executed.comm])
  else if o.status = .Canceled ∨ o.status = .Margin ∨ o.status = .Rejected then
    ({ s with order := none }, [orderFailedMsg])
  else
    ({ s with order := none }, [])

/-- The `notify_trade` method of src/long_strat.py (lines 84-93). -/
def notify_trade (t : Trade) : List String :=
  if t.isclosed = false then []
  else [operationResultMsg t.pnl t.pnlcomm]

end LongStrat

namespace LongShortStrat

/-- The `next_open` method of src/long_and_short_strat.py (lines 88-120).
The sizing expression is evaluated once, at the top of the method
(line 96), from the cash available at that instant. -/
def next_open (cash openPx closePx pred : ℚ) (pos : ℤ) : List Intent × List String :=
  let n := size cash openPx
  if pos = 0 then
    if 0 < pred then
      ([Intent.buy n], [longCreatedMsg n cash openPx closePx])
    else if pred < 0 then
      ([Intent.sell n], [shortCreatedMsg n cash openPx closePx])
    else ([], [])
  else if 0 < pos then
    if pred < 0 then
      ([Intent.close, Intent.sell n], [closeLongMsg pos])
    else ([], [])
  else
    if 0 < pred then
      ([Intent.close, Intent.buy n], [closeShortMsg |pos|])
    else ([], [])

/-- The `notify_order` method of src/long_and_short_strat.py
(lines 59-75).  Note that it has no branch for the Completed status. -/
def notify_order (s : StratState) (o : BtOrder) : StratState × List String :=
  if o.status = .Submitted ∨ o.status = .Accepted then (s, [])
  else if o.status = .Canceled ∨ o.status = .Margin ∨ o.status = .Rejected then
    ({ s with order := none }, [orderFailedMsg])
  else
    ({ s with order := none }, [])

/-- The `notify_trade` method of src/long_and_short_strat.py
(lines 77-86). -/
def notify_trade (t : Trade) : List String :=
  if t.isclosed = false then []
  else [operationResultMsg t.pnl t.pnlcomm]

end LongShortStrat

/-- Modelled from the spec: the available cash right after a CLOSE intent
has been acted on by the broker (the broker itself is an external
collaborator, outside src/).  Closing a long position of size `pos` at the
open price adds the sale proceeds to cash; closing a short position
(`pos < 0`) spends cash buying the shares back. -/
def cashAfterClose (cash openPx : ℚ) (pos : ℤ) : ℚ := cash + (pos : ℚ) * openPx

/-- Modelled from the spec: the reopening size the spec describes for the
combined close+reverse path, computed from the cash available after the
CLOSE has taken effect. -/
def reopenSizeSpec (cash openPx : ℚ) (pos : ℤ) : ℤ :=
  size (cashAfterClose cash openPx pos) openPx

/-- Membership of a log message in the set of literal message patterns
enumerated by the spec: the message starts with one of the listed pattern
heads. -/
def specMsg (m : String) : Bool :=
  ("LONG CREATED".data.isPrefixOf m.data) ||
  ("SHORT CREATED".data.isPrefixOf m.data) ||
  ("CLOSE LONG POSITION".data.isPrefixOf m.data) ||
  ("CLOSE SHORT POSITION".data.isPrefixOf m.data) ||
  ("BUY EXECUTED".data.isPrefixOf m.data) ||
  ("SELL EXECUTED".data.isPrefixOf m.data) ||
  ("Order Failed".data.isPrefixOf m.data) ||
  ("OPERATION RESULT".data.isPrefixOf m.data)

/-- The pattern set of `specMsg` extended with the SELL CREATED pattern
actually used by the long-only exit branch. -/
def specMsgExt (m : String) : Bool :=
  specMsg m || ("SELL CREATED".data.isPrefixOf m.data)

/-! ### Helper lemmas -/

theorem size_eq_floor_of_nonneg (cash openPx : ℚ) (h : 0 ≤ cash / openPx) :
    size cash openPx = ⌊cash / openPx⌋ := by
  unfold size pyInt
  rw [if_pos h]

/-! ### C3: all-in sizing -/

/-- C3: for every cash > 0 and price > 0, the position size computed at
order creation equals floor(cash/price); in particular size 100 33 = 3 and
size 0 10 = 0. -/
theorem sizing_matches_floor (cash price : ℚ) (hc : 0 < cash) (hp : 0 < price) :
    size cash price = ⌊cash / price⌋ ∧ size 100 33 = 3 ∧ size 0 10 = 0 := by
  refine ⟨size_eq_floor_of_nonneg _ _ (div_nonneg hc.le hp.le), ?_, ?_⟩
  · unfold size pyInt
    norm_num
  · unfold size pyInt
    norm_num

/-- Witness for C3 at cash = 100, price = 33. -/
theorem sizing_matches_floor_witness :
    (0 : ℚ) < 100 ∧ (0 : ℚ) < 33 ∧ size 100 33 = 3 :=
  ⟨by norm_num, by norm_num,
   (sizing_matches_floor 100 33 (by norm_num) (by norm_num)).2.1⟩

/-! ### C6: degenerate sizing inputs -/

/-- C6 counterexample: with cash = -100 and referencePrice = 10 the sizing
computation returns -10, not zero. -/
theorem sizing_degenerate_cex : ¬ (size (-100) 10 = 0) := by
  unfold size pyInt
  rw [if_neg (by norm_num)]
  norm_num

/-- C6 (amended): for referencePrice > 0 and cash ≤ 0 the sizing
computation returns a nonpositive quantity, and it is zero exactly when
-referencePrice < cash. -/
theorem sizing_nonpos_of_nonpos_cash (cash price : ℚ) (hp : 0 < price) (hc : cash ≤ 0) :
    size cash price ≤ 0 ∧ (size cash price = 0 ↔ -price < cash) := by
  have hq : cash / price ≤ 0 := div_nonpos_of_nonpos_of_nonneg hc hp.le
  unfold size pyInt
  by_cases h : 0 ≤ cash / price
  · have hq0 : cash / price = 0 := le_antisymm hq h
    have hcash0 : cash = 0 := by
      rcases div_eq_zero_iff.mp hq0 with h0 | h0
      · exact h0
      · exact absurd h0 (ne_of_gt hp)
    rw [if_pos h, hq0]
    constructor
    · exact le_of_eq Int.floor_zero
    · constructor
      · intro _
        rw [hcash0]
        exact neg_lt_zero.mpr hp
      · intro _
        exact Int.floor_zero
  · push_neg at h
    rw [if_neg (not_le.mpr h)]
    have hfl : 0 ≤ ⌊-(cash / price)⌋ := Int.floor_nonneg.mpr (by linarith)
    constructor
    · omega
    · rw [neg_eq_zero]
      rw [Int.floor_eq_zero_iff]
      constructor
      · intro hmem
        have h1 : -(cash / price) < 1 := hmem.2
        have h2 : (-1 : ℚ) < cash / price := by linarith
        have := (lt_div_iff₀ hp).mp h2
        linarith
      · intro hlt
        refine ⟨by linarith, ?_⟩
        have h2 : (-1 : ℚ) < cash / price := by
          rw [lt_div_iff₀ hp]
          linarith
        linarith

/-- Witness for the amended C6 at cash = -5, price = 10. -/
theorem sizing_nonpos_of_nonpos_cash_witness :
    (0 : ℚ) < 10 ∧ (-5 : ℚ) ≤ 0 ∧ size (-5) 10 ≤ 0 :=
  ⟨by norm_num, by norm_num,
   (sizing_nonpos_of_nonpos_cash (-5) 10 (by norm_num) (by norm_num)).1⟩

/-! ### C2: long-only state machine -/

/-- C2: in the long-only variant, flat + bullish submits exactly one BUY
of floor(cash/open) shares; long + bearish submits exactly one SELL of the
full held size and no BUY; flat + non-bullish and long + non-bearish
submit nothing. -/
theorem longOnly_nextOpen_cases (cash openPx closePx pred : ℚ) (pos : ℤ)
    (hc : 0 ≤ cash) (ho : 0 < openPx) :
    (pos = 0 → 0 < pred →
      (LongStrat.next_open cash openPx closePx pred pos).1 = [Intent.buy ⌊cash / openPx⌋])
    ∧ (0 < pos → pred < 0 →
      (LongStrat.next_open cash openPx closePx pred pos).1 = [Intent.sell pos])
    ∧ (pos = 0 → pred ≤ 0 →
      (LongStrat.next_open cash openPx closePx pred pos).1 = [])
    ∧ (0 < pos → 0 ≤ pred →
      (LongStrat.next_open cash openPx closePx pred pos).1 = []) := by
  have hs : size cash openPx = ⌊cash / openPx⌋ :=
    size_eq_floor_of_nonneg _ _ (div_nonneg hc ho.le)
  refine ⟨?_, ?_, ?_, ?_⟩
  · intro h1 h2
    unfold LongStrat.next_open
    rw [if_pos h1, if_pos h2, hs]
  · intro h1 h2
    unfold LongStrat.next_open
    rw [if_neg (by omega), if_pos h2]
  · intro h1 h2
    unfold LongStrat.next_open
    rw [if_pos h1, if_neg (not_lt.mpr h2)]
  · intro h1 h2
    unfold LongStrat.next_open
    rw [if_neg (by omega), if_neg (not_lt.mpr h2)]

/-- Witness for C2: flat position, bullish signal, cash = 100, open = 10
submits one BUY of 10 shares. -/
theorem longOnly_nextOpen_cases_witness :
    (0 : ℚ) ≤ 100 ∧ (0 : ℚ) < 10 ∧
    (LongStrat.next_open 100 10 11 2 0).1 = [Intent.buy 10] := by
  refine ⟨by norm_num, by norm_num, ?_⟩
  have h := (longOnly_nextOpen_cases 100 10 11 2 0 (by norm_num) (by norm_num)).1
    rfl (by norm_num)
  rw [h]
  norm_num

/-! ### C10: zero-size entry orders are still submitted -/

/-- C10: with a flat position, a directional signal and 0 < cash < open,
both variants still submit an entry order of quantity 0 and still emit the
corresponding creation log line with size 0. -/
theorem zeroSize_entry_submitted (cash openPx closePx pred : ℚ)
    (h0 : 0 < cash) (h1 : cash < openPx) :
    (0 < pred →
      LongStrat.next_open cash openPx closePx pred 0
        = ([Intent.buy 0], [longCreatedMsg 0 cash openPx closePx])
      ∧ LongShortStrat.next_open cash openPx closePx pred 0
        = ([Intent.buy 0], [longCreatedMsg 0 cash openPx closePx]))
    ∧ (pred < 0 →
      LongShortStrat.next_open cash openPx closePx pred 0
        = ([Intent.sell 0], [shortCreatedMsg 0 cash openPx closePx])) := by
  have ho : (0 : ℚ) < openPx := lt_trans h0 h1
  have hs : size cash openPx = 0 := by
    rw [size_eq_floor_of_nonneg _ _ (div_nonneg h0.le ho.le)]
    rw [Int.floor_eq_zero_iff]
    exact ⟨div_nonneg h0.le ho.le, (div_lt_one ho).mpr h1⟩
  constructor
  · intro hp
    constructor
    · unfold LongStrat.next_open
      rw [if_pos rfl, if_pos hp, hs]
    · unfold LongShortStrat.next_open
      rw [hs, if_pos rfl, if_pos hp]
  · intro hp
    unfold LongShortStrat.next_open
    rw [hs, if_pos rfl, if_neg (not_lt.mpr hp.le), if_pos hp]

/-- Witness for C10 at cash = 5, open = 10, bullish prediction 2. -/
theorem zeroSize_entry_submitted_witness :
    (0 : ℚ) < 5 ∧ (5 : ℚ) < 10 ∧
    (LongStrat.next_open 5 10 11 2 0).1 = [Intent.buy 0] := by
  refine ⟨by norm_num, by norm_num, ?_⟩
  have h := ((zeroSize_entry_submitted 5 10 11 2 (by norm_num) (by norm_num)).1
    (by norm_num)).1
  rw [h]

/-! ### C1: close-and-reverse in the long-and-short variant -/

/-- C1 counterexample: holding a long position of 2 shares with cash 5 and
open price 10, a bearish signal makes the combined variant submit
CLOSE followed by a SELL of size int(5/10) = 0, not a SELL sized from the
cash available after the close (int((5 + 2*10)/10) = 2). -/
theorem lsReverse_sizeBeforeClose_cex :
    ¬ ((LongShortStrat.next_open 5 10 11 (-1) 2).1
        = [Intent.close, Intent.sell (reopenSizeSpec 5 10 2)]) := by
  have h1 : (LongShortStrat.next_open 5 10 11 (-1) 2).1
      = [Intent.close, Intent.sell 0] := by
    have hs : size 5 10 = 0 := by
      unfold size pyInt
      norm_num
    unfold LongShortStrat.next_open
    rw [hs, if_neg (by decide), if_pos (by decide), if_pos (by norm_num)]
  have h2 : reopenSizeSpec 5 10 2 = 2 := by
    unfold reopenSizeSpec cashAfterClose size pyInt
    norm_num
  rw [h1, h2]
  decide

/-- C1 (amended): while the combined variant holds a position and the
signal reverses, next_open submits a CLOSE intent followed by a new SELL
(resp. BUY) intent, in that order, but the quantity of the new intent is
computed from the cash read once at the start of next_open, before the
CLOSE is requested; it does not reflect the effect of the close on cash. -/
theorem lsReverse_closeThenReopen (cash openPx closePx pred : ℚ) (pos : ℤ) :
    (0 < pos → pred < 0 →
      (LongShortStrat.next_open cash openPx closePx pred pos).1
        = [Intent.close, Intent.sell (size cash openPx)])
    ∧ (pos < 0 → 0 < pred →
      (LongShortStrat.next_open cash openPx closePx pred pos).1
        = [Intent.close, Intent.buy (size cash openPx)]) := by
  constructor
  · intro h1 h2
    unfold LongShortStrat.next_open
    rw [if_neg (by omega), if_pos h1, if_pos h2]
  · intro h1 h2
    unfold LongShortStrat.next_open
    rw [if_neg (by omega), if_neg (by omega), if_pos h2]

/-- Witness for the amended C1: long 2 shares, cash 5, open 10, bearish
signal submits CLOSE then SELL of int(5/10) = 0 shares. -/
theorem lsReverse_closeThenReopen_witness :
    (0 : ℤ) < 2 ∧ (-1 : ℚ) < 0 ∧
    (LongShortStrat.next_open 5 10 11 (-1) 2).1
      = [Intent.close, Intent.sell 0] := by
  refine ⟨by norm_num, by norm_num, ?_⟩
  have h := (lsReverse_closeThenReopen 5 10 11 (-1) 2).1 (by norm_num) (by norm_num)
  rw [h]
  have hs : size 5 10 = 0 := by
    unfold size pyInt
    norm_num
  rw [hs]

/-! ### Concrete two-decimal formatting facts -/

theorem fmt2_101_5 : fmt2 (101.5 : ℚ) = "101.50" := by
  unfold fmt2
  rw [show roundHalfEven ((101.5 : ℚ) * 100) = 10150 by unfold roundHalfEven; norm_num]
  decide

theorem fmt2_10000 : fmt2 (10000 : ℚ) = "10000.00" := by
  unfold fmt2
  rw [show roundHalfEven ((10000 : ℚ) * 100) = 1000000 by unfold roundHalfEven; norm_num]
  decide

theorem fmt2_5 : fmt2 (5 : ℚ) = "5.00" := by
  unfold fmt2
  rw [show roundHalfEven ((5 : ℚ) * 100) = 500 by unfold roundHalfEven; norm_num]
  decide

theorem fmt2_120_4567 : fmt2 (120.4567 : ℚ) = "120.46" := by
  unfold fmt2
  rw [show roundHalfEven ((120.4567 : ℚ) * 100) = 12046 by unfold roundHalfEven; norm_num]
  decide

theorem fmt2_110_1 : fmt2 (110.1 : ℚ) = "110.10" := by
  unfold fmt2
  rw [show roundHalfEven ((110.1 : ℚ) * 100) = 11010 by unfold roundHalfEven; norm_num]
  decide

/-! ### C4: completed-order notifications -/

/-- C4 counterexample: in the long-and-short variant a COMPLETED buy
notification with price 101.5, cost 10000, commission 5 emits no log line
at all, in particular not the BUY EXECUTED message the claim requires. -/
theorem lsNotifyOrder_completed_cex :
    ¬ ((LongShortStrat.notify_order ⟨some (), none, none, 1⟩
          ⟨.Completed, true, ⟨101.5, 10000, 5⟩⟩).2
        = ["BUY EXECUTED --- Price: 101.50, Cost: 10000.00, Commission: 5.00"]) := by
  have h : (LongShortStrat.notify_order ⟨some (), none, none, 1⟩
      ⟨.Completed, true, ⟨101.5, 10000, 5⟩⟩).2 = [] := by
    unfold LongShortStrat.notify_order
    rw [if_neg (by decide), if_neg (by decide)]
  rw [h]
  intro hfalse
  exact List.noConfusion hfalse

/-- C4 (amended): on a COMPLETED notification the long-only variant emits
exactly one log entry distinguishing buy from sell fills, with executed
price, notional cost and commission formatted to two decimal places, and
records the last executed price and commission for buy fills only; the
long-and-short variant records nothing and emits nothing on COMPLETED,
only clearing the handle.  A completed buy with price 101.5, cost 10000
and commission 5 yields the literal BUY EXECUTED message. -/
theorem notifyOrder_completed (s : StratState) (o : BtOrder)
    (h : o.status = .Completed) :
    (o.isbuy = true →
      LongStrat.notify_order s o
        = ({ s with order := none,
                    price := some o.executed.price,
                    comm := some o.executed.comm },
           [buyExecutedMsg o.executed.price o.executed.value o.executed.comm]))
    ∧ (o.isbuy = false →
      LongStrat.notify_order s o
        = ({ s with order := none },
           [sellExecutedMsg o.executed.price o.executed.value o.executed.comm]))
    ∧ LongShortStrat.notify_order s o = ({ s with order := none }, [])
    ∧ buyExecutedMsg 101.5 10000 5
        = "BUY EXECUTED --- Price: 101.50, Cost: 10000.00, Commission: 5.00" := by
  refine ⟨?_, ?_, ?_, ?_⟩
  · intro hb
    unfold LongStrat.notify_order
    rw [if_neg (by rw [h]; decide), if_pos h, if_pos hb]
  · intro hb
    unfold LongStrat.notify_order
    rw [if_neg (by rw [h]; decide), if_pos h, if_neg (by rw [hb]; decide)]
  · unfold LongShortStrat.notify_order
    rw [if_neg (by rw [h]; decide), if_neg (by rw [h]; decide)]
  · unfold buyExecutedMsg
    rw [fmt2_101_5, fmt2_10000, fmt2_5]
    decide

/-- Witness for the amended C4: a completed buy fill in the long-only
variant records price and commission and logs the BUY EXECUTED line. -/
theorem notifyOrder_completed_witness :
    ((⟨.Completed, true, ⟨101.5, 10000, 5⟩⟩ : BtOrder).status = .Completed)
    ∧ ((⟨.Completed, true, ⟨101.5, 10000, 5⟩⟩ : BtOrder).isbuy = true)
    ∧ LongStrat.notify_order ⟨some (), none, none, 0⟩
        ⟨.Completed, true, ⟨101.5, 10000, 5⟩⟩
      = (⟨none, some 101.5, some 5, 0⟩, [buyExecutedMsg 101.5 10000 5]) :=
  ⟨rfl, rfl,
   (notifyOrder_completed ⟨some (), none, none, 0⟩
     ⟨.Completed, true, ⟨101.5, 10000, 5⟩⟩ rfl).1 rfl⟩

/-! ### C5: failed-order notifications -/

/-- C5: in both variants a CANCELED, MARGIN or REJECTED notification is
handled identically: exactly one Order Failed log line, the tracked order
handle cleared to none, and no other state (position, recorded price or
commission) changed. -/
theorem notifyOrder_failure (s : StratState) (o : BtOrder)
    (h : o.status = .Canceled ∨ o.status = .Margin ∨ o.status = .Rejected) :
    LongStrat.notify_order s o = ({ s with order := none }, [orderFailedMsg])
    ∧ LongShortStrat.notify_order s o = ({ s with order := none }, [orderFailedMsg]) := by
  have hna : ¬ (o.status = .Submitted ∨ o.status = .Accepted) := by
    rcases h with h | h | h <;> rw [h] <;> decide
  have hnc : ¬ (o.status = .Completed) := by
    rcases h with h | h | h <;> rw [h] <;> decide
  constructor
  · unfold LongStrat.notify_order
    rw [if_neg hna, if_neg hnc, if_pos h]
  · unfold LongShortStrat.notify_order
    rw [if_neg hna, if_pos h]

/-- Witness for C5 at a REJECTED notification. -/
theorem notifyOrder_failure_witness :
    ((⟨.Rejected, false, ⟨0, 0, 0⟩⟩ : BtOrder).status = .Canceled
      ∨ (⟨.Rejected, false, ⟨0, 0, 0⟩⟩ : BtOrder).status = .Margin
      ∨ (⟨.Rejected, false, ⟨0, 0, 0⟩⟩ : BtOrder).status = .Rejected)
    ∧ LongStrat.notify_order ⟨some (), none, none, 3⟩ ⟨.Rejected, false, ⟨0, 0, 0⟩⟩
        = (⟨none, none, none, 3⟩, [orderFailedMsg]) :=
  ⟨Or.inr (Or.inr rfl),
   (notifyOrder_failure ⟨some (), none, none, 3⟩ ⟨.Rejected, false, ⟨0, 0, 0⟩⟩
     (Or.inr (Or.inr rfl))).1⟩

/-! ### C7: trade notifications -/

/-- C7: in both variants a closed trade emits exactly one OPERATION RESULT
report with gross and net P&L to two decimals, and an open trade produces
no output; gross 120.4567 and net 110.1 yield the literal message. -/
theorem notifyTrade_report (t : Trade) :
    LongStrat.notify_trade t
        = (if t.isclosed then [operationResultMsg t.pnl t.pnlcomm] else [])
    ∧ LongShortStrat.notify_trade t
        = (if t.isclosed then [operationResultMsg t.pnl t.pnlcomm] else [])
    ∧ operationResultMsg 120.4567 110.1
        = "OPERATION RESULT --- Gross: 120.46, Net: 110.10" := by
  refine ⟨?_, ?_, ?_⟩
  · cases hb : t.isclosed <;> simp [LongStrat.notify_trade, hb]
  · cases hb : t.isclosed <;> simp [LongShortStrat.notify_trade, hb]
  · unfold operationResultMsg
    rw [fmt2_120_4567, fmt2_110_1]
    decide

/-! ### C9: other statuses silently clear the handle -/

/-- C9: in both variants, every notification whose status is not Submitted
or Accepted clears the tracked order handle to none, including statuses
outside the modeled terminal set such as Created, Partial or Expired,
which are cleared silently with no log line in either variant. -/
theorem notifyOrder_nonterminal (s : StratState) (o : BtOrder)
    (h1 : o.status ≠ .Submitted) (h2 : o.status ≠ .Accepted) :
    ((LongStrat.notify_order s o).1.order = none
      ∧ (LongShortStrat.notify_order s o).1.order = none)
    ∧ (o.status = .Created ∨ o.status = .Partial ∨ o.status = .Expired →
      (LongStrat.notify_order s o).2 = [] ∧ (LongShortStrat.notify_order s o).2 = []) := by
  rcases o with ⟨st, ib, ex⟩
  refine ⟨⟨?_, ?_⟩, fun h3 => ⟨?_, ?_⟩⟩ <;>
    cases st <;> cases ib <;>
      first
        | exact absurd rfl h1
        | exact absurd rfl h2
        | rfl
        | (rcases h3 with h3 | h3 | h3 <;> exact OrderStatus.noConfusion h3)

/-! ### C8: the set of log message patterns -/

theorem isPrefixOf_data_append (h s t : String)
    (hp : (h.data.isPrefixOf s.data) = true) :
    (h.data.isPrefixOf (s ++ t).data) = true := by
  rw [List.isPrefixOf_iff_prefix] at hp ⊢
  rw [String.data_append]
  exact hp.trans (List.prefix_append _ _)

theorem specMsgExt_longCreated (n : ℤ) (cash openPx closePx : ℚ) :
    specMsgExt (longCreatedMsg n cash openPx closePx) = true := by
  have hp : ("LONG CREATED".data.isPrefixOf
      (longCreatedMsg n cash openPx closePx).data) = true := by
    unfold longCreatedMsg
    repeat apply isPrefixOf_data_append
    decide
  unfold specMsgExt specMsg
  rw [hp]
  rfl

theorem specMsgExt_shortCreated (n : ℤ) (cash openPx closePx : ℚ) :
    specMsgExt (shortCreatedMsg n cash openPx closePx) = true := by
  have hp : ("SHORT CREATED".data.isPrefixOf
      (shortCreatedMsg n cash openPx closePx).data) = true := by
    unfold shortCreatedMsg
    repeat apply isPrefixOf_data_append
    decide
  unfold specMsgExt specMsg
  rw [hp]
  simp

theorem specMsgExt_sellCreated (n : ℤ) :
    specMsgExt (sellCreatedMsg n) = true := by
  have hp : ("SELL CREATED".data.isPrefixOf (sellCreatedMsg n).data) = true := by
    unfold sellCreatedMsg
    repeat apply isPrefixOf_data_append
    decide
  unfold specMsgExt
  rw [hp]
  simp

theorem specMsgExt_closeLong (n : ℤ) :
    specMsgExt (closeLongMsg n) = true := by
  have hp : ("CLOSE LONG POSITION".data.isPrefixOf (closeLongMsg n).data) = true := by
    unfold closeLongMsg
    repeat apply isPrefixOf_data_append
    decide
  unfold specMsgExt specMsg
  rw [hp]
  simp

theorem specMsgExt_closeShort (n : ℤ) :
    specMsgExt (closeShortMsg n) = true := by
  have hp : ("CLOSE SHORT POSITION".data.isPrefixOf (closeShortMsg n).data) = true := by
    unfold closeShortMsg
    repeat apply isPrefixOf_data_append
    decide
  unfold specMsgExt specMsg
  rw [hp]
  simp

theorem specMsgExt_buyExecuted (price value comm : ℚ) :
    specMsgExt (buyExecutedMsg price value comm) = true := by
  have hp : ("BUY EXECUTED".data.isPrefixOf (buyExecutedMsg price value comm).data) = true := by
    unfold buyExecutedMsg
    repeat apply isPrefixOf_data_append
    decide
  unfold specMsgExt specMsg
  rw [hp]
  simp

theorem specMsgExt_sellExecuted (price value comm : ℚ) :
    specMsgExt (sellExecutedMsg price value comm) = true := by
  have hp : ("SELL EXECUTED".data.isPrefixOf (sellExecutedMsg price value comm).data) = true := by
    unfold sellExecutedMsg
    repeat apply isPrefixOf_data_append
    decide
  unfold specMsgExt specMsg
  rw [hp]
  simp

theorem specMsgExt_orderFailed : specMsgExt orderFailedMsg = true := by decide

theorem specMsgExt_operationResult (pnl pnlcomm : ℚ) :
    specMsgExt (operationResultMsg pnl pnlcomm) = true := by
  have hp : ("OPERATION RESULT".data.isPrefixOf (operationResultMsg pnl pnlcomm).data) = true := by
    unfold operationResultMsg
    repeat apply isPrefixOf_data_append
    decide
  unfold specMsgExt specMsg
  rw [hp]
  simp

/-- C8 counterexample: the long-only exit branch emits the message
SELL CREATED --- Size: 3, which does not match any pattern in the set
enumerated by the spec. -/
theorem logMessages_cex :
    (LongStrat.next_open 100 10 11 (-1) 3).2 = [sellCreatedMsg 3]
    ∧ specMsg (sellCreatedMsg 3) = false := by
  constructor
  · unfold LongStrat.next_open
    rw [if_neg (by decide), if_pos (by norm_num)]
  · decide

/-- C8 (amended): every log line has the form ISO-date, comma, message,
and every message emitted by either variant matches one of the literal
patterns of the spec extended with the SELL CREATED pattern used by the
long-only exit branch. -/
theorem logMessages_in_extended_set :
    (∀ cash openPx closePx pred : ℚ, ∀ pos : ℤ,
      ((LongStrat.next_open cash openPx closePx pred pos).2.all specMsgExt) = true)
    ∧ (∀ cash openPx closePx pred : ℚ, ∀ pos : ℤ,
      ((LongShortStrat.next_open cash openPx closePx pred pos).2.all specMsgExt) = true)
    ∧ (∀ (s : StratState) (o : BtOrder),
      ((LongStrat.notify_order s o).2.all specMsgExt) = true)
    ∧ (∀ (s : StratState) (o : BtOrder),
      ((LongShortStrat.notify_order s o).2.all specMsgExt) = true)
    ∧ (∀ t : Trade, ((LongStrat.notify_trade t).all specMsgExt) = true)
    ∧ (∀ t : Trade, ((LongShortStrat.notify_trade t).all specMsgExt) = true)
    ∧ (∀ dt txt : String, logLine dt txt = dt ++ ", " ++ txt) := by
  refine ⟨?_, ?_, ?_, ?_, ?_, ?_, fun dt txt => rfl⟩
  · intro cash openPx closePx pred pos
    unfold LongStrat.next_open
    split_ifs <;>
      simp [List.all_cons, List.all_nil, specMsgExt_longCreated, specMsgExt_sellCreated]
  · intro cash openPx closePx pred pos
    unfold LongShortStrat.next_open
    split_ifs <;>
      simp [List.all_cons, List.all_nil, specMsgExt_longCreated, specMsgExt_shortCreated,
        specMsgExt_closeLong, specMsgExt_closeShort]
  · intro s o
    unfold LongStrat.notify_order
    split_ifs <;>
      simp [List.all_cons, List.all_nil, specMsgExt_buyExecuted, specMsgExt_sellExecuted,
        specMsgExt_orderFailed]
  · intro s o
    unfold LongShortStrat.notify_order
    split_ifs <;>
      simp [List.all_cons, List.all_nil, specMsgExt_orderFailed]
  · intro t
    unfold LongStrat.notify_trade
    split_ifs <;>
      simp [List.all_cons, List.all_nil, specMsgExt_operationResult]
  · intro t
    unfold LongShortStrat.notify_trade
    split_ifs <;>
      simp [List.all_cons, List.all_nil, specMsgExt_operationResult]

/-- Witness for C9 at a Partial notification. -/
theorem notifyOrder_nonterminal_witness :
    ((⟨.Partial, true, ⟨1, 2, 3⟩⟩ : BtOrder).status ≠ .Submitted)
    ∧ ((⟨.Partial, true, ⟨1, 2, 3⟩⟩ : BtOrder).status ≠ .Accepted)
    ∧ (LongStrat.notify_order ⟨some (), none, none, 5⟩
        ⟨.Partial, true, ⟨1, 2, 3⟩⟩).1.order = none :=
  ⟨by decide, by decide,
   ((notifyOrder_nonterminal ⟨some (), none, none, 5⟩ ⟨.Partial, true, ⟨1, 2, 3⟩⟩
     (by decide) (by decide)).1).1⟩

end MLTrading
